import Mathlib

/-!
Verification development for the voice-assistant session gateway
(packages/voice-server-py).  The definitions below are a shallow embedding of
the Python sources:

* `schemas_generated.py` — the event envelope, the payload shapes and the
  `AnyEvent` discriminated union (embedded as `eventCatalog` / `decode`);
* `main.py`              — the dispatcher (`handleText`), the orchestrator
  (`process_text_input`), the transcript callback (`on_stt_transcription`)
  and the session registry updates (`registry_attach` / `registry_detach`);
* `services/llm_engine.py`   — `chat_stream` and the conversation history;
* `services/audio_engine.py` — `init_tts`, `set_voice`, `speak_stream`;
* `services/stt_engine.py`   — `stt_start`, `feed_pcm`.

External collaborators (ollama, RealtimeTTS, RealtimeSTT, the websocket
transport) are modelled by environment records whose fields fix the outcome of
each collaborator call; filesystem access (`os.path.exists`) is a boolean
oracle in the same record.
-/

namespace VoiceServer

/-- JSON values as produced by `json.loads`.  Numbers are carried as integers:
no arithmetic is ever performed on a payload number by the server, only shape
checks, so the int/float distinction of the wire format is irrelevant here. -/
inductive Json where
  | null
  | bool (b : Bool)
  | num (n : Int)
  | str (s : String)
  | arr (elems : List Json)
  | obj (fields : List (String × Json))

namespace Json

/-- Field lookup in a JSON object (first binding wins, as in a Python dict
produced by `json.loads`, whose keys are unique). -/
def getField : Json → String → Option Json
  | .obj fields, k => fields.lookup k
  | _, _ => none

def isStr : Json → Bool
  | .str _ => true
  | _ => false

def isNum : Json → Bool
  | .num _ => true
  | _ => false

def isBool : Json → Bool
  | .bool _ => true
  | _ => false

def isObj : Json → Bool
  | .obj _ => true
  | _ => false

def isNull : Json → Bool
  | .null => true
  | _ => false

end Json

/-- The field-type language of the generated pydantic models
(`schemas_generated.py`).  Each constructor corresponds to one annotation
form emitted by `scripts/generate_events.py` (`py_type`). -/
inductive FieldTy where
  /-- `str` -/
  | pyStr
  /-- `int` -/
  | pyInt
  /-- `float` (accepts integral numbers too; numbers are one constructor here) -/
  | pyFloat
  /-- `bool` -/
  | pyBool
  /-- `datetime` — an ISO-8601 string on the wire; the embedding abstracts the
  format parse and accepts any string -/
  | pyDatetime
  /-- `Any` -/
  | pyAny
  /-- `Dict[str, T]` -/
  | pyDict (values : FieldTy)
  /-- `List[T]` -/
  | pyList (items : FieldTy)
  /-- `Literal["v"]` with a string value -/
  | litStr (value : String)
  /-- `Literal["a", "b", ...]` -/
  | strEnum (values : List String)
  /-- A `Literal[...]` whose value is an *undefined Python name*.  The
  generator renders boolean literal values with `json.dumps`, so
  `SttPartialPayload.final` is annotated `Literal[false]` and
  `SttFinalPayload.final` is annotated `Literal[true]` — lowercase `false` /
  `true` are not Python names.  Evaluating such an annotation raises
  `NameError`; pydantic defers the failure from class-definition time to the
  first use of the model, so validating any instance of these payloads fails.
  The carried string is the undefined name. -/
  | undefinedName (pyName : String)
  /-- The one nested model of the catalog, `RagHit` (validated by
  `ragHitMatches` below). -/
  | ragHit
deriving DecidableEq, Repr

/-- Does evaluating the annotation raise `NameError`?  (True exactly when an
`undefinedName` occurs in the type.) -/
def FieldTy.refsUndefined : FieldTy → Bool
  | .undefinedName _ => true
  | .pyDict v => v.refsUndefined
  | .pyList it => it.refsUndefined
  | _ => false

/-- Check one model field against a JSON object `j`: a missing key is allowed
only for `Optional[...] = None` fields, an explicit `null` likewise, otherwise
the value must match the field type. -/
def fieldOk (j : Json) (name : String) (optional : Bool) (check : Json → Bool) : Bool :=
  match j.getField name with
  | none => optional
  | some v => (optional && v.isNull) || check v

/-- `class RagHit(BaseModel)` of `schemas_generated.py`:
`sourceId: str`, `title: Optional[str]`, `snippet: str`, `score: float`,
`loc: Optional[Dict[str, Any]]`. -/
def ragHitMatches : Json → Bool
  | j@(.obj _) =>
      fieldOk j "sourceId" false Json.isStr &&
      fieldOk j "title" true Json.isStr &&
      fieldOk j "snippet" false Json.isStr &&
      fieldOk j "score" false Json.isNum &&
      fieldOk j "loc" true Json.isObj
  | _ => false

/-- Shape check of a JSON value against a field type, assuming the annotation
itself evaluates (see `FieldTy.refsUndefined` for the ones that do not). -/
def FieldTy.matches : FieldTy → Json → Bool
  | .pyStr, j => j.isStr
  | .pyInt, j => j.isNum
  | .pyFloat, j => j.isNum
  | .pyBool, j => j.isBool
  | .pyDatetime, j => j.isStr
  | .pyAny, _ => true
  | .pyDict v, .obj fs => fs.all (fun kv => FieldTy.matches v kv.2)
  | .pyDict _, _ => false
  | .pyList it, .arr xs => xs.all (fun x => FieldTy.matches it x)
  | .pyList _, _ => false
  | .litStr s, .str v => v == s
  | .litStr _, _ => false
  | .strEnum vals, .str v => vals.contains v
  | .strEnum _, _ => false
  | .undefinedName _, _ => false
  | .ragHit, j => ragHitMatches j

/-- One declared field of a generated payload model. -/
structure PyField where
  name : String
  optional : Bool
  ty : FieldTy
deriving DecidableEq, Repr

/-- Validation outcome: `invalid` models a pydantic `ValidationError`,
`nameError` models the `NameError` raised when a model whose annotations
reference undefined names (`Literal[false]` / `Literal[true]`) is used. -/
inductive VErr where
  | invalid
  | nameError
deriving DecidableEq, Repr

/-- Validate a JSON value against a generated payload model: if any field
annotation references an undefined name the model itself is unusable
(`nameError`); otherwise the value must be an object whose fields match. -/
def validatePayload (fields : List PyField) (j : Json) : Except VErr Unit :=
  if fields.any (fun f => f.ty.refsUndefined) then .error .nameError
  else match j with
    | .obj _ =>
        if fields.all (fun f => fieldOk j f.name f.optional f.ty.matches)
        then .ok () else .error .invalid
    | _ => .error .invalid

/-- `Severity = Literal["debug", "info", "warn", "error"]`. -/
def severities : List String := ["debug", "info", "warn", "error"]

/-- The closed event catalog of `schemas_generated.py`: each entry is one
member of the `AnyEvent` union, keyed by its `type: Literal[...]` discriminator
tag, with the field list of its payload model.  Transcribed class by class. -/
def eventCatalog : List (String × List PyField) := [
  ("stream.start",
    [⟨"streamId", false, .pyStr⟩, ⟨"meta", true, .pyDict .pyAny⟩]),
  ("stream.chunk",
    [⟨"streamId", false, .pyStr⟩, ⟨"seq", false, .pyInt⟩,
     ⟨"data", false, .pyDict .pyAny⟩]),
  ("stream.end",
    [⟨"streamId", false, .pyStr⟩, ⟨"reason", true, .pyStr⟩]),
  ("voice.start",
    [⟨"sampleRate", false, .pyInt⟩, ⟨"format", false, .strEnum ["pcm16", "f32"]⟩,
     ⟨"channels", false, .pyInt⟩]),
  ("voice.chunk",
    [⟨"seq", false, .pyInt⟩, ⟨"bytesB64", false, .pyStr⟩, ⟨"ms", false, .pyInt⟩]),
  ("voice.end",
    [⟨"totalMs", false, .pyInt⟩]),
  ("stt.partial",
    [⟨"text", false, .pyStr⟩, ⟨"confidence", false, .pyFloat⟩,
     ⟨"final", false, .undefinedName "false"⟩]),
  ("stt.final",
    [⟨"text", false, .pyStr⟩, ⟨"confidence", false, .pyFloat⟩,
     ⟨"final", false, .undefinedName "true"⟩]),
  ("chat.query",
    [⟨"text", false, .pyStr⟩, ⟨"locale", true, .pyStr⟩,
     ⟨"sessionId", false, .pyStr⟩]),
  ("chat.prompt",
    [⟨"messages", false, .pyList .pyAny⟩, ⟨"system", true, .pyStr⟩,
     ⟨"tools", true, .pyList .pyAny⟩]),
  ("llm.token",
    [⟨"text", false, .pyStr⟩, ⟨"seq", false, .pyInt⟩]),
  ("llm.text",
    [⟨"text", false, .pyStr⟩]),
  ("llm.complete",
    [⟨"text", false, .pyStr⟩, ⟨"usage", true, .pyDict .pyAny⟩]),
  ("tts.start",
    [⟨"voice", false, .pyStr⟩, ⟨"format", false, .strEnum ["pcm16", "wav", "mp3"]⟩,
     ⟨"sampleRate", false, .pyInt⟩]),
  ("tts.audio",
    [⟨"seq", false, .pyInt⟩, ⟨"bytesB64", false, .pyStr⟩, ⟨"ms", false, .pyInt⟩]),
  ("tts.viseme_timing",
    [⟨"visemes", false, .pyList .pyAny⟩, ⟨"timingMs", false, .pyList .pyInt⟩]),
  ("tts.end",
    [⟨"totalMs", false, .pyInt⟩]),
  ("avatar.start",
    [⟨"fps", false, .pyInt⟩, ⟨"format", false, .strEnum ["rgb", "yuv"]⟩,
     ⟨"resolution", false, .pyStr⟩]),
  ("avatar.frame",
    [⟨"seq", false, .pyInt⟩, ⟨"imageB64", false, .pyStr⟩]),
  ("avatar.end",
    [⟨"totalFrames", false, .pyInt⟩]),
  ("rag.query",
    [⟨"text", false, .pyStr⟩, ⟨"topK", true, .pyInt⟩]),
  ("rag.context",
    [⟨"hits", false, .pyList .ragHit⟩]),
  ("tool.request",
    [⟨"tool", false, .pyStr⟩, ⟨"action", false, .pyStr⟩,
     ⟨"params", false, .pyDict .pyAny⟩,
     ⟨"capabilityTier", false, .strEnum
        ["read_only", "write_local_confirm", "destructive_two_step",
         "network_off_by_default"]⟩,
     ⟨"requiresConfirm", false, .pyBool⟩]),
  ("tool.result",
    [⟨"ok", false, .pyBool⟩, ⟨"data", true, .pyDict .pyAny⟩,
     ⟨"error", true, .pyAny⟩]),
  ("event.fs.changed",
    [⟨"path", false, .pyStr⟩, ⟨"kind", false, .strEnum ["create", "modify", "delete"]⟩,
     ⟨"ts", false, .pyDatetime⟩]),
  ("event.system.health",
    [⟨"cpu", false, .pyFloat⟩, ⟨"ram", false, .pyFloat⟩,
     ⟨"vram", false, .pyFloat⟩, ⟨"disk", false, .pyFloat⟩]),
  ("event.git.build_failed",
    [⟨"project", false, .pyStr⟩, ⟨"logPath", false, .pyStr⟩,
     ⟨"exitCode", false, .pyInt⟩]),
  ("nudge.proposal",
    [⟨"title", false, .pyStr⟩, ⟨"reason", false, .pyStr⟩,
     ⟨"severity", false, .strEnum ["low", "medium", "high", "critical"]⟩,
     ⟨"suggestedActions", true, .pyList .pyAny⟩,
     ⟨"channel", false, .strEnum ["dashboard_only", "toast", "voice", "avatar"]⟩]),
  ("nudge.dispatch",
    [⟨"proposalId", false, .pyStr⟩,
     ⟨"channel", false, .strEnum ["dashboard_only", "toast", "voice", "avatar"]⟩,
     ⟨"rateLimited", false, .pyBool⟩]),
  ("ui.command",
    [⟨"command", false, .pyStr⟩, ⟨"args", true, .pyDict .pyAny⟩]),
  ("ui.feedback",
    [⟨"target", false, .pyStr⟩, ⟨"helpful", false, .pyBool⟩,
     ⟨"note", true, .pyStr⟩]),
  ("ui.interruptibility",
    [⟨"mode", false, .strEnum ["dnd", "focus", "available"]⟩]),
  ("turn.start",
    [⟨"sessionId", false, .pyStr⟩,
     ⟨"inputType", false, .strEnum ["text", "voice", "event"]⟩]),
  ("turn.end",
    [⟨"sessionId", false, .pyStr⟩, ⟨"outcome", false, .strEnum ["ok", "error"]⟩]),
  ("pipeline.status",
    [⟨"pipelineId", false, .pyStr⟩, ⟨"step", false, .pyStr⟩,
     ⟨"state", false, .strEnum ["start", "done", "error"]⟩]),
  ("ledger.entry",
    [⟨"actorSkill", false, .pyStr⟩, ⟨"action", false, .pyStr⟩,
     ⟨"targets", false, .pyList .pyStr⟩, ⟨"beforeHash", true, .pyStr⟩,
     ⟨"afterHash", true, .pyStr⟩, ⟨"ts", false, .pyDatetime⟩]),
  ("error.raised",
    [⟨"code", false, .pyStr⟩, ⟨"message", false, .pyStr⟩,
     ⟨"details", true, .pyDict .pyAny⟩, ⟨"recoverable", false, .pyBool⟩])]

/-- A decoded event envelope (`EventEnvelopeBase` with its discriminated
payload).  `ts` is kept as its ISO-8601 wire string; the payload is kept as the
validated JSON value, mirroring that the pydantic payload models are plain
records of their JSON fields. -/
structure PyEvent where
  type : String
  traceId : String
  ts : String
  source : String
  severity : String
  payload : Json

/-- JSON serialization of an envelope model.  The repository serializes with
the wire aliases (`make_envelope` in `main.py` builds the dict with `traceId`;
`model_dump(by_alias=True)` does the same). -/
def encode (e : PyEvent) : Json :=
  .obj [("type", .str e.type), ("traceId", .str e.traceId), ("ts", .str e.ts),
        ("source", .str e.source), ("severity", .str e.severity),
        ("payload", e.payload)]

/-- Read a required string field. -/
def getStrField (j : Json) (name : String) : Except VErr String :=
  match j.getField name with
  | some (.str s) => .ok s
  | _ => .error .invalid

/-- Validation of a JSON value against the `AnyEvent` discriminated union:
the envelope base fields (`type`, `trace_id` with alias `traceId` and
`populate_by_name=True`, `ts`, `source`, `severity`), then discrimination on
`type` over the closed catalog, then the payload shape bound to that tag.
An unknown tag or a payload shape mismatch is rejected; the `stt.partial` /
`stt.final` payload models cannot validate at all (see
`FieldTy.undefinedName`). -/
def decode (j : Json) : Except VErr PyEvent := do
  if ¬ j.isObj then throw .invalid
  let t ← getStrField j "type"
  let tr ← match j.getField "traceId" with
    | some (.str s) => pure s
    | some _ => throw .invalid
    | none => getStrField j "trace_id"
  let ts ← getStrField j "ts"
  let src ← getStrField j "source"
  let sev ← getStrField j "severity"
  if ¬ severities.contains sev then throw .invalid
  let pl ← match j.getField "payload" with
    | some v => pure v
    | none => throw .invalid
  match eventCatalog.lookup t with
  | none => throw .invalid
  | some fields => do
      validatePayload fields pl
      pure ⟨t, tr, ts, src, sev, pl⟩

/-! ## Python exceptions crossing the dispatcher's `try` block -/

/-- The exceptions that can reach the `except Exception` clause of
`control_endpoint` (`main.py` lines 148-154). -/
inductive PyExc where
  /-- `json.JSONDecodeError` from `json.loads` on a non-JSON text frame. -/
  | jsonDecodeError
  /-- `AttributeError` from attribute access (carries the attribute name). -/
  | attributeError (attr : String)
  /-- A failure raised by the generation / synthesis collaborators inside
  `process_text_input` (ollama or RealtimeTTS). -/
  | pipelineError
deriving DecidableEq, Repr

/-- `str(e)` as interpolated into the error envelope message.  The exact
message text is irrelevant to every claim; the mapping is deterministic. -/
def excMessage : PyExc → String
  | .jsonDecodeError => "Expecting value"
  | .attributeError attr => "AttributeError: " ++ attr
  | .pipelineError => "pipeline failure"

/-- `main.py` line 132: `event = AnyEvent.model_validate(raw_data)`.

`AnyEvent` (`schemas_generated.py` line 353) is
`Annotated[Union[...], Field(discriminator='type')]` — a `typing.Annotated`
alias, not a pydantic `BaseModel`, and `model_validate` is a `BaseModel`
classmethod.  Attribute access on the alias is relayed to its origin, the
`Union[...]` alias, and from there to the `typing.Union` special form, which
has no `model_validate`; the call therefore raises
`AttributeError: model_validate` for every input, before any validation is
attempted.  (Validating through the union would require
`TypeAdapter(AnyEvent)`.)  The intended catalog validation is embedded
separately as `decode` above. -/
def anyEventModelValidate (_raw : Json) : Except PyExc PyEvent :=
  .error (.attributeError "model_validate")

/-! ## Outbound envelopes (`VoiceServerState.make_envelope`) -/

/-- An outbound envelope as built by `make_envelope` in `main.py`.  The
`traceId` (fresh `uuid4`) and `ts` (`utcnow`) fields are freshly generated
effectful values that no claim inspects; the embedding records the
deterministic fields `type`, `severity` and `payload` (the `source` is the
constant `"voice-server-py"`). -/
structure OutEvent where
  type : String
  severity : String
  payload : Json

def make_envelope (event_type : String) (payload : Json) (severity : String) :
    OutEvent :=
  ⟨event_type, severity, payload⟩

/-- The `pipeline.status` payload `{pipelineId: "voice_chat", step, state}`. -/
def pipelineStatusEnvelope (step state : String) : OutEvent :=
  make_envelope "pipeline.status"
    (.obj [("pipelineId", .str "voice_chat"), ("step", .str step),
           ("state", .str state)]) "info"

/-- The `error.raised` envelope sent by the dispatcher's `except` clause:
`{code: "E_PROTOCOL", message: str(e), recoverable: True}`, severity `warn`. -/
def protocolErrorEnvelope (msg : String) : OutEvent :=
  make_envelope "error.raised"
    (.obj [("code", .str "E_PROTOCOL"), ("message", .str msg),
           ("recoverable", .bool true)]) "warn"

/-- Observable effects of handling one message / one turn, in program order:
`send` is `websocket.send_json` (equivalently `active_socket.send_json`),
`speak` is the blocking `audio.speak_stream` consuming the LLM generator
(audio is played locally; nothing is sent to the client by this step). -/
inductive Effect where
  | send (e : OutEvent)
  | speak (reply : String)

/-! ## `services/llm_engine.py` -/

structure ChatMsg where
  role : String
  content : String
deriving DecidableEq, Repr

/-- `CRAFTY_SYSTEM_PROMPT` of `llm_engine.py` (German persona prompt; its
exact wording is irrelevant to the claims, which depend only on the message
identity and its `role`; quotation marks of the original are elided here). -/
def CRAFTY_SYSTEM_PROMPT : String :=
  "Du bist Crafty, ein begeisterter Minecraft-Modding-Experte und Assistent. " ++
  "Deine Zielgruppe sind Kinder und Jugendliche (10-14 Jahre). " ++
  "Du hilfst beim Erstellen von Mods (Fabric API). " ++
  "Deine Antworten sind motivierend, kurz und praegnant."

/-- The system message appended when the history is empty. -/
def sysMsg : ChatMsg := ⟨"system", CRAFTY_SYSTEM_PROMPT⟩

/-- `LLMEngine` mutable state: `self.history`. -/
structure LLMState where
  history : List ChatMsg
deriving DecidableEq, Repr

/-- `LLMEngine.__init__` (the ollama model probe has no effect on `history`). -/
def llm_init : LLMState := ⟨[]⟩

/-- `LLMEngine.reset`. -/
def llm_reset (_st : LLMState) : LLMState := ⟨[]⟩

/-- The part of `LLMEngine.chat_stream` that runs before the ollama call:
seed the system prompt into an empty history, append the user message, and
clip `history` to `[history[0]] + history[-19:]` when it exceeds 20 entries. -/
def chat_stream_pre (st : LLMState) (user_text : String) : LLMState :=
  let h := if st.history.isEmpty then st.history ++ [sysMsg] else st.history
  let h := h ++ [⟨"user", user_text⟩]
  if h.length > 20 then ⟨h.take 1 ++ h.drop (h.length - 19)⟩ else ⟨h⟩

/-- `LLMEngine.chat_stream`, observed after the returned generator has been
fully consumed: the pre-call history mutation followed by appending the
assistant message with the concatenation of all streamed fragments
(`full_response`). -/
def chat_stream (st : LLMState) (user_text reply : String) : LLMState :=
  ⟨(chat_stream_pre st user_text).history ++ [⟨"assistant", reply⟩]⟩

/-! ## Collaborator environment -/

/-- Outcomes of the external collaborator calls made during dispatch and a
turn: `pathExists` is the `os.path.exists` oracle, `llmReply` the full
concatenated ollama stream for a user text, `speakRaises` whether the
generation-plus-synthesis step (`ollama.chat` / `TextToAudioStream.play`,
run via `asyncio.to_thread`) raises, `coquiInitOk` whether the `CoquiEngine`
constructor succeeds. -/
structure Env where
  pathExists : String → Bool
  llmReply : String → String
  speakRaises : Bool
  coquiInitOk : Bool

/-! ## `services/audio_engine.py` -/

inductive TtsEngine where
  | coqui (voice : String)
  | system
deriving DecidableEq, Repr

/-- `AudioEngine` mutable state (`self.engine`, `self.current_voice_sample`;
the `TextToAudioStream` wrapper is determined by the engine and not tracked
separately). -/
structure AudioState where
  engine : Option TtsEngine
  current_voice_sample : Option String
deriving DecidableEq, Repr

/-- `AudioEngine.__init__`. -/
def audio_init : AudioState := ⟨none, none⟩

/-- `AudioEngine.initialize_tts`: Coqui XTTS when a voice sample path is given
and exists, otherwise the `SystemEngine` fallback; if the Coqui constructor
raises, the `except` clause falls back to `SystemEngine` and
`current_voice_sample` is left unchanged (the assignment sits after the
constructor inside the `try`). -/
def init_tts (env : Env) (st : AudioState) (voice_sample_path : Option String) :
    AudioState :=
  match voice_sample_path with
  | some p =>
      if env.pathExists p then
        if env.coquiInitOk then ⟨some (.coqui p), some p⟩
        else { st with engine := some .system }
      else ⟨some .system, some p⟩
  | none => ⟨some .system, none⟩

/-- `AudioEngine.set_voice`: no-op when the sample is already current; re-init
with the new sample only when the running engine is a `CoquiEngine` and the
path exists; in every other case (no engine yet, or `SystemEngine` fallback)
nothing happens. -/
def set_voice (env : Env) (st : AudioState) (voice_sample_path : String) :
    AudioState :=
  if st.current_voice_sample = some voice_sample_path then st
  else match st.engine with
    | some (.coqui _) =>
        if env.pathExists voice_sample_path then
          init_tts env st (some voice_sample_path)
        else st
    | _ => st

/-- `AudioEngine.speak_stream`: lazily initialize the engine (no voice sample)
on first use, then feed and play the text generator, blocking; `speakRaises`
covers a failure of the generation/synthesis step. -/
def speak_stream (env : Env) (st : AudioState) : AudioState × Option PyExc :=
  let st := if st.engine.isNone then init_tts env st none else st
  if env.speakRaises then (st, some .pipelineError) else (st, none)

/-! ## `services/stt_engine.py` -/

/-- The two transcript callbacks that are ever registered on the engine:
`orchestrator` is `on_stt_transcription` (registered by the lifespan hook via
`state.stt.start`), `logOnly` is the `lambda text: logger.info(...)` that
`feed_pcm` registers when it finds the recorder uninitialized. -/
inductive SttCallback where
  | orchestrator
  | logOnly
deriving DecidableEq, Repr

/-- `STTEngine` mutable state (`self.recorder`, `self.on_text_callback`; the
model/language strings never change and are omitted).  The recorder handle is
opaque. -/
structure STTState where
  recorder : Option Unit
  on_text_callback : Option SttCallback
deriving DecidableEq, Repr

/-- `STTEngine.__init__`. -/
def stt_init : STTState := ⟨none, none⟩

/-- Outcomes of the RealtimeSTT collaborator calls: `initSucceeds` is whether
the `AudioToTextRecorder` constructor succeeds, `chunkOk` whether
`np.frombuffer` accepts the fed bytes (length a multiple of 2),
`recognizedText` the result of `recorder.text()` after the feed (`none`
models both `None` and no call being reached). -/
structure SttEnv where
  initSucceeds : Bool
  chunkOk : Bool
  recognizedText : Option String
deriving DecidableEq, Repr

/-- `STTEngine.start`: early-return if a recorder exists; otherwise register
the callback, then attempt the `AudioToTextRecorder` constructor, whose
failure is caught and only logged (the recorder stays `None`). -/
def stt_start (env : SttEnv) (st : STTState) (cb : SttCallback) : STTState :=
  if st.recorder.isSome then st
  else
    let st := { st with on_text_callback := some cb }
    if env.initSucceeds then { st with recorder := some () } else st

/-- Log lines of `STTEngine.feed_pcm` that claims refer to. -/
inductive SttLog where
  /-- `"STT not initialized, starting..."` (warning) -/
  | warnNotInitialized
  /-- `"Error feeding audio: ..."` (error, from the `except` clause) -/
  | errorFeedingAudio
deriving DecidableEq, Repr

/-- The body of `feed_pcm`'s `try` block as a fallible computation:
`np.frombuffer` (raises `ValueError` on an odd-length buffer),
`recorder.feed_audio` (an `AttributeError` on `None` when the recorder is
absent), `recorder.text()`, and — when the text is truthy and a callback is
registered — the callback invocation.  The value is the list of callback
invocations performed. -/
def feed_pcm_try (env : SttEnv) (st : STTState) :
    Except PyExc (List (SttCallback × String)) :=
  if ¬ env.chunkOk then .error (.attributeError "frombuffer-ValueError")
  else match st.recorder with
    | none => .error (.attributeError "feed_audio")
    | some _ =>
        match env.recognizedText with
        | some t =>
            if t ≠ "" then
              match st.on_text_callback with
              | some cb => .ok [(cb, t)]
              | none => .ok []
            else .ok []
        | none => .ok []

/-- Result of one `feed_pcm` call: the successor engine state, the callback
invocations that happened, the exception propagated to the caller (the
dispatcher's `asyncio.to_thread`), and the log lines. -/
structure FeedResult where
  state : STTState
  invoked : List (SttCallback × String)
  propagated : Option PyExc
  logs : List SttLog
deriving DecidableEq, Repr

/-- `STTEngine.feed_pcm`: when the recorder is absent, warn and retry
initialization via `self.start(lambda text: logger.info(...))` — note this
registers the logging lambda, replacing any previously registered callback;
then run the `try` body, whose every failure the `except` clause swallows
into a log line. -/
def feed_pcm (env : SttEnv) (st : STTState) : FeedResult :=
  let (st, logs) :=
    if st.recorder.isNone then (stt_start env st .logOnly, [SttLog.warnNotInitialized])
    else (st, [])
  match feed_pcm_try env st with
  | .ok invs => ⟨st, invs, none, logs⟩
  | .error _ => ⟨st, [], none, logs ++ [SttLog.errorFeedingAudio]⟩

/-! ## `main.py`: global state, transcript callback, turn pipeline -/

/-- `VoiceServerState` plus the engines it owns.  The connection handle
(`active_socket`) is an opaque id. -/
structure ServerState where
  active_socket : Option Nat
  llm : LLMState
  audio : AudioState
  stt : STTState

/-- `VoiceServerState.__init__` composed with the engines' constructors. -/
def initialState : ServerState := ⟨none, llm_init, audio_init, stt_init⟩

/-- Python `str.strip()` whitespace (ASCII; `str.strip` also strips a few
unicode spaces that cannot reach this code path from the recognizer). -/
def isPySpace (c : Char) : Bool :=
  c = ' ' ∨ c = '\t' ∨ c = '\n' ∨ c = '\r' ∨ c = '\x0b' ∨ c = '\x0c'

/-- Python `text.strip()`. -/
def pyStrip (s : String) : String :=
  String.mk (((s.data.dropWhile isPySpace).reverse.dropWhile isPySpace).reverse)

/-- A unit of work marshalled from the recognizer's worker thread onto the
session event loop by `asyncio.run_coroutine_threadsafe`: sending the
`stt.final` envelope, or running the `process_text_input` coroutine. -/
inductive Work where
  | sendFinal (text : String)
  | processText (text : String)
deriving DecidableEq, Repr

/-- `on_stt_transcription` (runs on the recognizer's worker thread): discard
an empty/whitespace-only transcript; otherwise, when a socket is attached,
schedule the `stt.final` send and then the LLM pipeline onto the loop.  The
function reads but never writes the server state; the returned state is the
input state. -/
def on_stt_transcription (st : ServerState) (text : String) :
    ServerState × List Work :=
  if pyStrip text = "" then (st, [])
  else match st.active_socket with
    | some _ => (st, [.sendFinal text, .processText text])
    | none => (st, [])

/-- The cross-context bridge: each `asyncio.run_coroutine_threadsafe(c, loop)`
call appends one unit of work to the loop's FIFO ready queue
(`loop.call_soon_threadsafe` enqueues in call order).  Firing the transcript
callback for each text in sequence on the worker thread therefore appends the
works of each callback in firing order.  The loop drains the queue
front-to-back, so the queue order is the processing order. -/
def fireCallbacks (st : ServerState) (texts : List String) (queue : List Work) :
    List Work :=
  texts.foldl (fun q t => q ++ (on_stt_transcription st t).2) queue

/-- `process_text_input`: emit `pipeline.status{llm,start}` if a socket is
attached; build the lazy `chat_stream` generator and hand it to
`audio.speak_stream` inside `asyncio.to_thread` (the generator body runs
while being consumed there); on completion emit `pipeline.status{tts,done}`
if a socket is attached.  There is no `try` in this function: a collaborator
failure propagates to the caller (with the conversation history only
partially mutated by the half-consumed generator; no claim reads the
post-failure history, which is left untracked here). -/
def process_text_input (env : Env) (st : ServerState) (text : String) :
    ServerState × List Effect × Option PyExc :=
  let out1 : List Effect :=
    if st.active_socket.isSome then [.send (pipelineStatusEnvelope "llm" "start")]
    else []
  let (audio', exc?) := speak_stream env st.audio
  match exc? with
  | some e => ({ st with audio := audio' }, out1, some e)
  | none =>
      let llm' := chat_stream st.llm text (env.llmReply text)
      let st' := { st with llm := llm', audio := audio' }
      let out2 : List Effect :=
        if st'.active_socket.isSome then [.send (pipelineStatusEnvelope "tts" "done")]
        else []
      (st', out1 ++ [.speak (env.llmReply text)] ++ out2, none)

/-! ## `main.py`: the protocol dispatcher (`control_endpoint`) -/

/-- The `try` body of the text-message branch of `control_endpoint`
(lines 129-146): `json.loads` (a parse failure is the `none` case of the
already-parsed input), `AnyEvent.model_validate` (which raises, see
`anyEventModelValidate`), then dispatch on the event type.  The dispatch code
below line 132 is translated faithfully although it is unreachable: a
`chat.query` awaits `process_text_input` (whose failure propagates into this
`try`), a `ui.command` with `command == "set_profile"` reads
`payload.args.get("path")` (an `AttributeError` when `args` is `None`),
validates the path, applies `audio.set_voice` and sends the `ui.feedback`
confirmation; any other recognized event type falls through with no effect. -/
def handleTextBody (env : Env) (st : ServerState) (parsed : Option Json) :
    Except PyExc (ServerState × List Effect) := do
  match parsed with
  | none => throw .jsonDecodeError
  | some raw =>
      let event ← anyEventModelValidate raw
      if event.type = "chat.query" then
        let text := match event.payload.getField "text" with
          | some (.str s) => s
          | _ => ""
        let (st', outs, exc?) := process_text_input env st text
        match exc? with
        | some e => throw e
        | none => pure (st', outs)
      else if event.type = "ui.command" then
        let command := match event.payload.getField "command" with
          | some (.str c) => c
          | _ => ""
        if command = "set_profile" then
          match event.payload.getField "args" with
          | some (.obj args) =>
              match args.lookup "path" with
              | some (.str p) =>
                  if env.pathExists p then
                    let st' := { st with audio := set_voice env st.audio p }
                    pure (st', [.send (make_envelope "ui.feedback"
                      (.obj [("target", .str "voice_profile"),
                             ("helpful", .bool true),
                             ("note", .str ("Profile set to " ++ p))]) "info")])
                  else pure (st, [])
              | _ => pure (st, [])
          | _ => throw (.attributeError "get")
        else pure (st, [])
      else pure (st, [])

/-- Result of one iteration of the dispatcher's receive loop: the successor
state, the effects in program order, and whether the handler left the loop
(closed the session from its side). -/
structure HandleResult where
  state : ServerState
  sent : List Effect
  closed : Bool

/-- One text-frame iteration of `control_endpoint`: run the `try` body; on any
exception, the `except Exception` clause (lines 148-154) sends exactly one
`error.raised{code: "E_PROTOCOL", message: str(e), recoverable: True}`
envelope and the `while True` loop continues — the handler never closes the
socket on a handling failure. -/
def handleText (env : Env) (st : ServerState) (parsed : Option Json) :
    HandleResult :=
  match handleTextBody env st parsed with
  | .ok (st', outs) => ⟨st', outs, false⟩
  | .error e => ⟨st, [.send (protocolErrorEnvelope (excMessage e))], false⟩

/-- One inbound transport message: a binary frame (its byte content abstracted
behind `SttEnv`) or a text frame given as its `json.loads` outcome. -/
inductive Inbound where
  | binary
  | text (parsed : Option Json)

/-- One iteration of the receive loop of `control_endpoint`: binary frames go
to `stt.feed_pcm` via `asyncio.to_thread`; any transcript-callback invocation
performed there fires `on_stt_transcription` on the worker thread, whose
scheduled works are modelled by `fireCallbacks`; text frames go to
`handleText`. -/
def handleMessage (env : Env) (senv : SttEnv) (st : ServerState) (msg : Inbound) :
    HandleResult :=
  match msg with
  | .binary =>
      let r := feed_pcm senv st.stt
      ⟨{ st with stt := r.state }, [], false⟩
  | .text parsed => handleText env st parsed

/-! ## `main.py`: the session registry (the `active_socket` slot) -/

/-- `main.py` line 114: accepting a connection stores it as the sole active
one, unconditionally superseding any prior value. -/
def registry_attach (c : Nat) (_slot : Option Nat) : Option Nat :=
  some c

/-- `main.py` lines 156-161: both the `WebSocketDisconnect` handler and the
generic `except` handler run `state.active_socket = None` — the slot is
cleared unconditionally, with no comparison against the detaching
connection. -/
def registry_detach (_c : Nat) (_slot : Option Nat) : Option Nat :=
  none

/-- The spec's wording of `detach` (§4.2), for comparison with
`registry_detach`: clear the active slot only if it still equals the
detaching connection. -/
def registry_detach_spec (c : Nat) (slot : Option Nat) : Option Nat :=
  if slot = some c then none else slot

/-- An attach/detach interleaving step. -/
inductive RegOp where
  | attach (c : Nat)
  | detach (c : Nat)
deriving DecidableEq, Repr

/-- Run an interleaving of attach and detach operations against the registry
slot, with the code's semantics. -/
def runRegOps (ops : List RegOp) (slot : Option Nat) : Option Nat :=
  ops.foldl (fun s op =>
    match op with
    | .attach c => registry_attach c s
    | .detach c => registry_detach c s) slot

/-! ## Concrete inputs used by the witnesses and counterexamples -/

/-- A quiescent collaborator environment: no path exists, empty LLM replies,
no collaborator failure. -/
def env0 : Env := ⟨fun _ => false, fun _ => "", false, true⟩

/-- A healthy environment whose LLM answers every query with `"Hallo!"`. -/
def envH : Env := ⟨fun _ => false, fun _ => "Hallo!", false, true⟩

/-- Server state with a client attached as connection `0`. -/
def stC : ServerState := { initialState with active_socket := some 0 }

/-- A well-formed `stt.final` envelope, constructible from the catalog entry
`("stt.final", text: str, confidence: float, final: Literal[true])`. -/
def sttFinalExample : PyEvent :=
  ⟨"stt.final", "trace-3", "2025-01-01T00:00:00Z", "voice-server-py", "info",
   .obj [("text", .str "hallo"), ("confidence", .num 1), ("final", .bool true)]⟩

/-- The wire form of a well-formed `ui.command` envelope requesting
`set_profile` with path `/voice_profiles/sample.wav`. -/
def setProfileMsg : Json :=
  encode ⟨"ui.command", "trace-1", "2025-01-01T00:00:00Z", "client", "info",
    .obj [("command", .str "set_profile"),
          ("args", .obj [("path", .str "/voice_profiles/sample.wav")])]⟩

/-- An environment in which `/voice_profiles/sample.wav` exists. -/
def envProfile : Env := ⟨fun p => p == "/voice_profiles/sample.wav", fun _ => "", false, true⟩

/-- The wire form of a well-formed `chat.query` envelope. -/
def chatQueryMsg : Json :=
  encode ⟨"chat.query", "trace-2", "2025-01-01T00:00:00Z", "client", "info",
    .obj [("text", .str "hello"), ("sessionId", .str "s1")]⟩

/-- An environment whose generation/synthesis step raises. -/
def envBrokenTts : Env := ⟨fun _ => false, fun _ => "", true, true⟩

/-- A recognizer environment whose `AudioToTextRecorder` constructor fails. -/
def envSttDown : SttEnv := ⟨false, true, none⟩

/-! ## Claims -/

/-- C1: for every inbound text message that is not valid JSON (`parsed = none`)
or is valid JSON that does not validate against the event catalog
(`(decode j).isOk = false`), the dispatcher emits exactly one `error.raised`
envelope with code `"E_PROTOCOL"` and `recoverable = true`, and the receive
loop stays alive (the handler does not close the socket).  In the code as
written this holds for a stronger reason: `AnyEvent.model_validate` raises on
every input (see `anyEventModelValidate`), so every text frame — valid or not
— takes the single `except` path that sends exactly one such envelope and
continues the loop. -/
theorem dispatcher_invalid_message_protocol_error
    (env : Env) (st : ServerState) (parsed : Option Json)
    (hinvalid : parsed = none ∨ ∃ j, parsed = some j ∧ (decode j).isOk = false) :
    ∃ msg, (handleText env st parsed).sent = [.send (protocolErrorEnvelope msg)] ∧
      (handleText env st parsed).closed = false := by
  cases parsed with
  | none => exact ⟨excMessage .jsonDecodeError, rfl, rfl⟩
  | some j => exact ⟨excMessage (.attributeError "model_validate"), rfl, rfl⟩

/-- Witness for C1 at the spec's own scenario: a malformed text frame such as
`"{bad"` fails `json.loads` (`parsed = none`). -/
theorem dispatcher_invalid_message_protocol_error_witness :
    ((none : Option Json) = none ∨
      ∃ j, (none : Option Json) = some j ∧ (decode j).isOk = false) ∧
    (∃ msg, (handleText env0 initialState none).sent = [.send (protocolErrorEnvelope msg)] ∧
      (handleText env0 initialState none).closed = false) :=
  ⟨Or.inl rfl,
   dispatcher_invalid_message_protocol_error env0 initialState none (Or.inl rfl)⟩

/-- C2: whenever `process_text_input` (the processing of a `chat.query`
command) runs with a connection attached and healthy collaborators, its effect
trace is exactly `pipeline.status{pipelineId: "voice_chat", step: "llm",
state: "start"}`, then the generation/synthesis step, then
`pipeline.status{step: "tts", state: "done"}` — in particular the `llm/start`
status strictly precedes synthesis, `tts/done` follows its completion, and no
`error.raised` envelope is emitted in between (no exception escapes). -/
theorem chat_query_emits_llm_start_then_tts_done
    (env : Env) (st : ServerState) (text : String) (c : Nat)
    (hconn : st.active_socket = some c) (hok : env.speakRaises = false) :
    (process_text_input env st text).2.1 =
      [.send (pipelineStatusEnvelope "llm" "start"),
       .speak (env.llmReply text),
       .send (pipelineStatusEnvelope "tts" "done")] ∧
    (process_text_input env st text).2.2 = none := by
  constructor <;> simp [process_text_input, speak_stream, hok, hconn]

/-- Witness for C2: the spec scenario `chat.query{text: "hello"}` against a
healthy environment with connection `0` attached. -/
theorem chat_query_emits_llm_start_then_tts_done_witness :
    stC.active_socket = some 0 ∧ envH.speakRaises = false ∧
    ((process_text_input envH stC "hello").2.1 =
      [.send (pipelineStatusEnvelope "llm" "start"),
       .speak (envH.llmReply "hello"),
       .send (pipelineStatusEnvelope "tts" "done")] ∧
     (process_text_input envH stC "hello").2.2 = none) :=
  ⟨rfl, rfl, chat_query_emits_llm_start_then_tts_done envH stC "hello" 0 rfl rfl⟩

/-- C3: a final transcript whose text is empty or whitespace-only is discarded
by `on_stt_transcription` with no side effect: no work is scheduled onto the
loop (hence no `stt.final` send, no turn, no `pipeline.status`) and the server
state is unchanged. -/
theorem empty_transcript_no_effect (st : ServerState) (text : String)
    (h : pyStrip text = "") :
    on_stt_transcription st text = (st, ([] : List Work)) := by
  simp [on_stt_transcription, h]

/-- Witness for C3: a whitespace-only transcript, with a client attached (so
that the discard is not explained by the absent-socket branch). -/
theorem empty_transcript_no_effect_witness :
    pyStrip " \t " = "" ∧
    on_stt_transcription stC " \t " = (stC, ([] : List Work)) :=
  ⟨rfl, empty_transcript_no_effect stC " \t " rfl⟩

/-- C4 counterexample: the claim says a stale detach never clears a newer
connection.  In the interleaving attach 1, attach 2, detach 1 the slot holds
connection 2 when the stale detach of connection 1 runs, yet the code's
unconditional `state.active_socket = None` clears it; the spec's
compare-and-clear semantics (`registry_detach_spec`) would have kept
connection 2. -/
theorem stale_detach_clears_newer_connection :
    runRegOps [.attach 1, .attach 2] none = some 2 ∧
    runRegOps [.attach 1, .attach 2, .detach 1] none = none ∧
    registry_detach_spec 1 (some 2) = some 2 := by
  decide

/-- C4 amended: detaching a connection (on disconnect or transport error)
unconditionally clears the session registry's active-connection slot — after
any interleaving of attaches and detaches, a final detach leaves the slot
empty, even when a newer connection had attached after the detaching one. -/
theorem detach_unconditionally_clears (ops : List RegOp) (c : Nat)
    (slot : Option Nat) :
    runRegOps (ops ++ [RegOp.detach c]) slot = none := by
  simp [runRegOps, List.foldl_append, registry_detach]

/-- C5 (code bug): decoding the encoding of a well-formed `stt.final` envelope
does not return the envelope — it fails with the `NameError` class of failure,
because the generated `SttFinalPayload` annotates `final` as `Literal[true]`
(and `SttPartialPayload` as `Literal[false]`), lowercase names that are
undefined in Python.  The second conjunct records that `stt.final` is a member
of the closed catalog, so the round-trip claim quantifies over this
envelope. -/
theorem stt_final_roundtrip_fails :
    decode (encode sttFinalExample) = .error .nameError ∧
    (eventCatalog.map Prod.fst).contains "stt.final" = true :=
  ⟨rfl, rfl⟩

/-- C6 (code bug): a well-formed `ui.command{command: "set_profile"}` whose
referenced path exists is answered with a single `error.raised{E_PROTOCOL}`
envelope — `AnyEvent.model_validate` raises before the command dispatch is
reached — so no `ui.feedback` confirmation is ever emitted and the profile is
never applied to the synthesis collaborator (the audio state is unchanged);
the session does continue (no crash, loop alive). -/
theorem set_profile_yields_protocol_error_not_feedback :
    (decode setProfileMsg).isOk = true ∧
    envProfile.pathExists "/voice_profiles/sample.wav" = true ∧
    (handleText envProfile initialState (some setProfileMsg)).sent =
      [.send (protocolErrorEnvelope "AttributeError: model_validate")] ∧
    (handleText envProfile initialState (some setProfileMsg)).state.audio = audio_init ∧
    (handleText envProfile initialState (some setProfileMsg)).closed = false :=
  ⟨rfl, rfl, rfl, rfl, rfl⟩

/-- C7 (code bug): a `chat.query` turn whose synthesis collaborator raises is
never reported as `error.raised{code: "E_PIPELINE"}`.  The dispatcher fails at
`AnyEvent.model_validate` before the turn starts and emits its catch-all
`error.raised` with code `"E_PROTOCOL"`; the code contains no `E_PIPELINE`
path at all (the same `except` clause would label a generation/synthesis
failure `E_PROTOCOL` too).  The session continues. -/
theorem pipeline_failure_reported_as_protocol_error :
    (decode chatQueryMsg).isOk = true ∧
    envBrokenTts.speakRaises = true ∧
    (handleText envBrokenTts initialState (some chatQueryMsg)).sent =
      [.send (protocolErrorEnvelope "AttributeError: model_validate")] ∧
    (protocolErrorEnvelope "AttributeError: model_validate").payload.getField "code" =
      some (.str "E_PROTOCOL") ∧
    ("E_PROTOCOL" : String) ≠ "E_PIPELINE" ∧
    (handleText envBrokenTts initialState (some chatQueryMsg)).closed = false :=
  ⟨rfl, rfl, rfl, rfl, by decide, rfl⟩

/-- C8: two transcript callbacks fired in sequence T1 then T2 on the
recognizer's worker thread enqueue their work units onto the loop's FIFO ready
queue in that order: the queue — which is the loop's processing order —
contains T1's `stt.final` send and pipeline coroutine strictly before T2's,
as distinct unmerged units. -/
theorem transcript_callbacks_processed_in_order
    (st : ServerState) (c : Nat) (t1 t2 : String)
    (hc : st.active_socket = some c)
    (h1 : pyStrip t1 ≠ "") (h2 : pyStrip t2 ≠ "") :
    fireCallbacks st [t1, t2] [] =
      [.sendFinal t1, .processText t1, .sendFinal t2, .processText t2] := by
  simp [fireCallbacks, on_stt_transcription, hc, h1, h2]

/-- Witness for C8: two concrete transcripts fired in order. -/
theorem transcript_callbacks_processed_in_order_witness :
    stC.active_socket = some 0 ∧ pyStrip "eins" ≠ "" ∧ pyStrip "zwei" ≠ "" ∧
    fireCallbacks stC ["eins", "zwei"] [] =
      [.sendFinal "eins", .processText "eins", .sendFinal "zwei", .processText "zwei"] :=
  ⟨rfl, by decide, by decide,
   transcript_callbacks_processed_in_order stC 0 "eins" "zwei" rfl (by decide) (by decide)⟩

/-- C9: when the recognition engine failed to initialize (its recorder is
absent) and initialization keeps failing, an audio feed is dropped: `feed_pcm`
performs no recognition and invokes no transcript callback (in particular not
the orchestrator's), propagates no exception to its caller, leaves the
recorder absent, and logs the `"STT not initialized"` warning. -/
theorem feed_pcm_after_init_failure_is_inert
    (env : SttEnv) (st : STTState)
    (hinit : env.initSucceeds = false) (hrec : st.recorder = none) :
    (feed_pcm env st).invoked = [] ∧
    (feed_pcm env st).propagated = none ∧
    (feed_pcm env st).state.recorder = none ∧
    SttLog.warnNotInitialized ∈ (feed_pcm env st).logs := by
  cases hck : env.chunkOk <;>
    simp [feed_pcm, feed_pcm_try, stt_start, hrec, hinit, hck]

/-- Witness for C9: a fresh engine whose recorder constructor fails. -/
theorem feed_pcm_after_init_failure_is_inert_witness :
    envSttDown.initSucceeds = false ∧ stt_init.recorder = none ∧
    ((feed_pcm envSttDown stt_init).invoked = [] ∧
     (feed_pcm envSttDown stt_init).propagated = none ∧
     (feed_pcm envSttDown stt_init).state.recorder = none ∧
     SttLog.warnNotInitialized ∈ (feed_pcm envSttDown stt_init).logs) :=
  ⟨rfl, rfl, feed_pcm_after_init_failure_is_inert envSttDown stt_init rfl rfl⟩

/-- The history invariant maintained across completed `chat_stream` calls:
the history is empty (initial state, or after `reset`) or starts with the
system-prompt message and holds at most 21 messages. -/
def LLMInv (st : LLMState) : Prop :=
  st.history = [] ∨ (st.history.head? = some sysMsg ∧ st.history.length ≤ 21)

/-- After `chat_stream_pre` (system seed, user append, clip), the history
starts with the system message and has at most 20 entries. -/
theorem chat_stream_pre_inv (st : LLMState) (u : String) (hinv : LLMInv st) :
    (chat_stream_pre st u).history.head? = some sysMsg ∧
    (chat_stream_pre st u).history.length ≤ 20 := by
  rcases hinv with h | ⟨hhead, hlen⟩
  · simp [chat_stream_pre, h]
  · cases hh : st.history with
    | nil => rw [hh] at hhead; simp at hhead
    | cons a tl =>
      rw [hh] at hhead hlen
      have ha : a = sysMsg := by simpa using hhead
      subst ha
      simp only [List.length_cons] at hlen
      simp only [chat_stream_pre, hh, List.isEmpty_cons, Bool.false_eq_true,
        if_false, List.cons_append, List.length_cons, List.length_append,
        List.length_singleton]
      split
      · constructor
        · simp [List.take]
        · simp [List.length_drop]
          omega
      · constructor
        · simp
        · simp
          omega

/-- C10: after every completed call to `LLMEngine.chat_stream` (the returned
generator fully consumed) starting from a state reachable through
construction, `reset` and prior completed calls (captured by `LLMInv`), the
conversation history is non-empty, its first element is the system-prompt
message with role `"system"`, and its length is at most 21; in particular the
system message is never removed or replaced. -/
theorem chat_stream_preserves_history_invariant
    (st : LLMState) (user_text reply : String) (hinv : LLMInv st) :
    (chat_stream st user_text reply).history ≠ [] ∧
    (chat_stream st user_text reply).history.head? = some sysMsg ∧
    (chat_stream st user_text reply).history.length ≤ 21 := by
  obtain ⟨hhead, hlen⟩ := chat_stream_pre_inv st user_text hinv
  cases hp : (chat_stream_pre st user_text).history with
  | nil => rw [hp] at hhead; simp at hhead
  | cons a tl =>
    rw [hp] at hhead hlen
    have ha : a = sysMsg := by simpa using hhead
    subst ha
    simp only [List.length_cons] at hlen
    refine ⟨?_, ?_, ?_⟩
    · simp [chat_stream, hp]
    · simp [chat_stream, hp]
    · simp [chat_stream, hp]
      omega

/-- Witness for C10: a first turn from the freshly constructed engine. -/
theorem chat_stream_preserves_history_invariant_witness :
    LLMInv llm_init ∧
    ((chat_stream llm_init "hi" "hallo").history ≠ [] ∧
     (chat_stream llm_init "hi" "hallo").history.head? = some sysMsg ∧
     (chat_stream llm_init "hi" "hallo").history.length ≤ 21) :=
  ⟨Or.inl rfl, chat_stream_preserves_history_invariant llm_init "hi" "hallo" (Or.inl rfl)⟩

end VoiceServer
